import Mathlib

/-!
Shallow embedding of `src/core/http.py` (Smart HTTP Client) and proofs about
its behaviour. Pure functions of the source are translated to Lean functions;
the mutable session / debugger / logger state is threaded explicitly through
an `HttpState` record; Python exceptions are modelled with `Except PyError`.
-/

set_option autoImplicit false

namespace RC

/-- Python exception classes that the embedded code can raise or catch.
`requestException` stands for `requests.RequestException` (the transport
failure class, which since requests 2.27 also subsumes
`requests.exceptions.JSONDecodeError` raised by `Response.json()`);
`attributeError` for `AttributeError` (attribute access on `None`, as in
`None.info(...)` or entering `with None`); `typeError` for `TypeError`
(e.g. an unexpected keyword argument at a call site); `assertionError` for
a failed `assert` statement. -/
inductive PyError where
  | requestException
  | attributeError
  | typeError
  | assertionError
deriving DecidableEq

/-- Flat string-to-string mapping (Python `dict[str, str]`), in insertion
order, keys unique by construction of the operations below. -/
abbrev Dict := List (String × String)

/-- Look up a key in an association list (first match). -/
def alGet {α : Type} : List (String × α) → String → Option α
  | [], _ => none
  | (k', v) :: tl, k => if k' == k then some v else alGet tl k

/-- Python `dict` assignment: replace the value of an existing key in place,
else append the new binding at the end. -/
def alSet {α : Type} : List (String × α) → String → α → List (String × α)
  | [], k, v => [(k, v)]
  | (k', v') :: tl, k, v =>
      if k' == k then (k', v) :: tl else (k', v') :: alSet tl k v

theorem alGet_alSet {α : Type} (l : List (String × α)) (k q : String) (v : α) :
    alGet (alSet l k v) q = if k == q then some v else alGet l q := by
  induction l with
  | nil =>
    by_cases h : k = q <;> simp [alSet, alGet, h]
  | cons p tl ih =>
    obtain ⟨k', v'⟩ := p
    by_cases h1 : k' = k
    · by_cases h2 : k = q <;> simp [alSet, alGet, h1, h2]
    · by_cases h2 : k' = q
      · have hqk : ¬ q = k := fun h => h1 (h2.trans h)
        have hkq : ¬ k = q := fun h => hqk h.symm
        simp [alSet, alGet, h1, h2, hqk, hkq]
      · simp [alSet, alGet, h1, h2, ih]

theorem alSet_append_of_not_mem {α : Type} (l : List (String × α)) (k : String) (v : α)
    (h : k ∉ l.map Prod.fst) : alSet l k v = l ++ [(k, v)] := by
  induction l with
  | nil => simp [alSet]
  | cons p tl ih =>
    obtain ⟨k', v'⟩ := p
    simp only [List.map_cons, List.mem_cons] at h
    push_neg at h
    have hne : ¬ k' = k := fun hk => h.1 hk.symm
    simp [alSet, hne, ih h.2]

/-- Merging a duplicate-free `Dict` into an empty jar reproduces it exactly. -/
theorem foldl_alSet_eq_append {α : Type} (d acc : List (String × α))
    (hd : (d.map Prod.fst).Nodup)
    (hdisj : ∀ x ∈ d.map Prod.fst, x ∉ acc.map Prod.fst) :
    d.foldl (fun c p => alSet c p.1 p.2) acc = acc ++ d := by
  induction d generalizing acc with
  | nil => simp
  | cons p tl ih =>
    obtain ⟨k, v⟩ := p
    simp only [List.map_cons, List.nodup_cons] at hd
    have hk : k ∉ acc.map Prod.fst := hdisj k (by simp)
    have step : alSet acc k v = acc ++ [(k, v)] := alSet_append_of_not_mem acc k v hk
    have hdisj' : ∀ x ∈ tl.map Prod.fst, x ∉ (acc ++ [(k, v)]).map Prod.fst := by
      intro x hx
      simp only [List.map_append, List.mem_append, List.map_cons, List.map_nil,
        List.mem_singleton]
      push_neg
      refine ⟨hdisj x (by simp [hx]), fun hxk => ?_⟩
      exact (hd.1 (hxk ▸ hx)).elim
    simp only [List.foldl_cons, step, ih (acc ++ [(k, v)]) hd.2 hdisj',
      List.append_assoc, List.singleton_append]

/-- Session headers: requests keeps them in a `CaseInsensitiveDict`; we model
it as an association list keyed by the lower-cased header name (the original
casing is never observed by the code under verification). -/
abbrev Headers := List (String × String)

/-- Case-insensitive header lookup (`CaseInsensitiveDict.__getitem__`). -/
def hget : Headers → String → Option String
  | [], _ => none
  | (k', v) :: tl, k => if k' == k.toLower then some v else hget tl k

/-- Case-insensitive header write (`CaseInsensitiveDict.__setitem__`):
replace the binding of the (lower-cased) key, else append it. -/
def hset : Headers → String → String → Headers
  | [], k, v => [(k.toLower, v)]
  | (k', v') :: tl, k, v =>
      if k' == k.toLower then (k', v) :: tl else (k', v') :: hset tl k v

/-- Case-insensitive header removal (`del headers[key]`). -/
def hdel (hs : Headers) (k : String) : Headers :=
  hs.filter (fun p => p.1 != k.toLower)

theorem hget_hset (hs : Headers) (k v q : String) :
    hget (hset hs k v) q = if k.toLower == q.toLower then some v else hget hs q := by
  induction hs with
  | nil =>
    by_cases h : k.toLower = q.toLower <;> simp [hset, hget, h]
  | cons p tl ih =>
    obtain ⟨k', v'⟩ := p
    by_cases h1 : k' = k.toLower
    · by_cases h2 : k.toLower = q.toLower <;>
        simp [hset, hget, h1, h2]
    · by_cases h2 : k' = q.toLower
      · have hqk : ¬ q.toLower = k.toLower := fun h => h1 (h2.trans h)
        have hkq : ¬ k.toLower = q.toLower := fun h => hqk h.symm
        simp [hset, hget, h1, h2, hqk, hkq]
      · simp [hset, hget, h1, h2, ih]

theorem hget_hdel (hs : Headers) (k q : String) :
    hget (hdel hs k) q = if k.toLower == q.toLower then none else hget hs q := by
  induction hs with
  | nil =>
    by_cases h : k.toLower = q.toLower <;> simp [hdel, hget, h]
  | cons p tl ih =>
    obtain ⟨k', v'⟩ := p
    by_cases h2 : k.toLower = q.toLower
    · by_cases h1 : k' = k.toLower
      · simp only [hdel, List.filter_cons] at *
        simp_all [hget]
      · simp only [hdel, List.filter_cons] at *
        by_cases h3 : k' = q.toLower
        · exact absurd (h3.trans h2.symm) h1
        · simp_all [hget]
    · by_cases h1 : k' = k.toLower
      · have h3 : ¬ k' = q.toLower := fun h => h2 (h1 ▸ h)
        simp only [hdel, List.filter_cons] at *
        simp_all [hget]
      · simp only [hdel, List.filter_cons] at *
        by_cases h3 : k' = q.toLower <;> simp_all [hget]

/-- JSON values (Python objects produced by `orjson.loads` /
`Response.json()`). -/
inductive Json where
  | null
  | bool (b : Bool)
  | num (n : Int)
  | str (s : String)
  | arr (elems : List Json)
  | obj (fields : List (String × Json))

/-- Opening brace character, written via its code point. -/
def lbrace : Char := Char.ofNat 123

/-- Closing brace character, written via its code point. -/
def rbrace : Char := Char.ofNat 125

/-- Drop leading JSON whitespace. -/
def skipWs : List Char → List Char
  | c :: cs =>
      if c == ' ' || c == '\t' || c == '\n' || c == '\r' then skipWs cs else c :: cs
  | [] => []

/-- Scan a JSON string body after the opening quote; returns the decoded
string and the rest of the input past the closing quote. -/
def scanStr : Nat → List Char → String → Option (String × List Char)
  | 0, _, _ => none
  | _ + 1, [], _ => none
  | fuel + 1, c :: cs, acc =>
      if c == '"' then some (acc, cs)
      else if c == '\\' then
        match cs with
        | d :: ds =>
            if d == '"' || d == '\\' || d == '/' then scanStr fuel ds (acc.push d)
            else if d == 'n' then scanStr fuel ds (acc.push '\n')
            else if d == 't' then scanStr fuel ds (acc.push '\t')
            else if d == 'r' then scanStr fuel ds (acc.push '\r')
            else none
        | [] => none
      else scanStr fuel cs (acc.push c)

/-- Scan a run of decimal digits into a natural number. -/
def scanNat : List Char → Nat → Nat × List Char
  | c :: cs, acc =>
      if c.isDigit then scanNat cs (acc * 10 + (c.toNat - 48)) else (acc, c :: cs)
  | [], acc => (acc, [])

mutual

/-- Modelled from the spec: generic JSON decoding is an external collaborator
(`orjson.loads` / `requests.Response.json()`); this recursive-descent parser
models it for integer numbers (no fraction or exponent part) and the basic
escape sequences, which suffices for every input the proofs evaluate. -/
def scanVal : Nat → List Char → Option (Json × List Char)
  | 0, _ => none
  | fuel + 1, cs =>
      match skipWs cs with
      | [] => none
      | c :: cs' =>
          if c == lbrace then scanObj fuel cs'
          else if c == '[' then scanArr fuel cs'
          else if c == '"' then (scanStr fuel cs' "").map (fun p => (Json.str p.1, p.2))
          else if c == '-' then
            match cs' with
            | d :: _ =>
                if d.isDigit then
                  let p := scanNat cs' 0
                  some (Json.num (-(p.1 : Int)), p.2)
                else none
            | [] => none
          else if c.isDigit then
            let p := scanNat (c :: cs') 0
            some (Json.num (p.1 : Int), p.2)
          else if (c :: cs').take 4 == ['t', 'r', 'u', 'e'] then
            some (Json.bool true, (c :: cs').drop 4)
          else if (c :: cs').take 5 == ['f', 'a', 'l', 's', 'e'] then
            some (Json.bool false, (c :: cs').drop 5)
          else if (c :: cs').take 4 == ['n', 'u', 'l', 'l'] then
            some (Json.null, (c :: cs').drop 4)
          else none

/-- Parse the inside of an array, the opening bracket already consumed. -/
def scanArr : Nat → List Char → Option (Json × List Char)
  | 0, _ => none
  | fuel + 1, cs =>
      match skipWs cs with
      | [] => none
      | c :: cs' =>
          if c == ']' then some (Json.arr [], cs')
          else
            match scanVal fuel cs with
            | none => none
            | some (v, rest) => scanArrTail fuel rest [v]

/-- Parse `, value`* `]` for an array whose first element is already read. -/
def scanArrTail : Nat → List Char → List Json → Option (Json × List Char)
  | 0, _, _ => none
  | fuel + 1, cs, acc =>
      match skipWs cs with
      | [] => none
      | c :: cs' =>
          if c == ']' then some (Json.arr acc.reverse, cs')
          else if c == ',' then
            match scanVal fuel cs' with
            | none => none
            | some (v, rest) => scanArrTail fuel rest (v :: acc)
          else none

/-- Parse the inside of an object, the opening brace already consumed. -/
def scanObj : Nat → List Char → Option (Json × List Char)
  | 0, _ => none
  | fuel + 1, cs =>
      match skipWs cs with
      | [] => none
      | c :: cs' =>
          if c == rbrace then some (Json.obj [], cs')
          else if c == '"' then
            match scanStr fuel cs' "" with
            | none => none
            | some (k, rest) => scanMember fuel rest k []
          else none

/-- Parse `: value` after a member key, then the rest of the object. -/
def scanMember : Nat → List Char → String → List (String × Json) →
    Option (Json × List Char)
  | 0, _, _, _ => none
  | fuel + 1, cs, k, acc =>
      match skipWs cs with
      | [] => none
      | c :: cs' =>
          if c == ':' then
            match scanVal fuel cs' with
            | none => none
            | some (v, rest) => scanObjTail fuel rest ((k, v) :: acc)
          else none

/-- Parse `, "key" : value`* and the closing brace of an object. -/
def scanObjTail : Nat → List Char → List (String × Json) →
    Option (Json × List Char)
  | 0, _, _ => none
  | fuel + 1, cs, acc =>
      match skipWs cs with
      | [] => none
      | c :: cs' =>
          if c == rbrace then some (Json.obj acc.reverse, cs')
          else if c == ',' then
            match skipWs cs' with
            | d :: ds =>
                if d == '"' then
                  match scanStr fuel ds "" with
                  | none => none
                  | some (k, rest) => scanMember fuel rest k acc
                else none
            | [] => none
          else none

end

/-- Modelled from the spec: `orjson.loads` on a whole document — parse one
JSON value and require only whitespace to remain; `none` models the raised
`JSONDecodeError`. -/
def jsonLoads (s : String) : Option Json :=
  match scanVal (s.length + 1) s.data with
  | none => none
  | some (j, rest) => if skipWs rest == [] then some j else none

/-- Dataclass `HttpRequest` (http.py lines 45-55); field defaults are the
dataclass defaults. `params` holds the best-effort string serialization of
the call's keyword options, as built by `save_req`. -/
structure HttpRequest where
  time_stamp : Nat
  method : String := ""
  url : String := ""
  params : Dict := []
  headers : Headers := []
  cookies : Dict := []

/-- Dataclass `HttpResponse` (http.py lines 58-71); the field defaults
(`success=False`, `code=200`, empty strings and mappings) are its zero
value. -/
structure HttpResponse where
  time_stamp : Nat
  success : Bool := false
  code : Nat := 200
  url : String := ""
  headers : Dict := []
  cookies : Dict := []
  text : String := ""
  json : Json := Json.obj []

/-- Dataclass `ClientData` (http.py lines 74-79): a request/response pair
handed to the debugger. -/
structure ClientData where
  req : HttpRequest
  res : HttpResponse

/-- Modelled from the spec: the transport's `requests.Response` object is an
external collaborator; only the attributes the code reads are kept. -/
structure Resp where
  status_code : Nat
  url : String := ""
  headers : Dict := []
  cookies : Dict := []
  text : String := ""

/-- Truthiness of a `requests.Response` (`Response.__bool__` = `Response.ok`):
false exactly for 4xx/5xx status codes. -/
def Resp.toBool (r : Resp) : Bool :=
  !(400 ≤ r.status_code && r.status_code < 600)

/-- `Response.json()`: decode the body; on failure requests ≥ 2.27 raises
`requests.exceptions.JSONDecodeError`, a subclass of
`requests.RequestException`. -/
def Resp.jsonBody (r : Resp) : Except PyError Json :=
  match jsonLoads r.text with
  | some j => Except.ok j
  | none => Except.error PyError.requestException

/-- The keyword-option bag (`**kwargs`) of a request: the recognized keys of
`prepare_headers` and `req` — a JSON payload, a form payload, explicit header
overrides (value `none` = Python `None`, which removes the header), and a
per-request timeout. -/
structure Kwargs where
  json : Option String := none
  data : Option String := none
  headers : Option (List (String × Option String)) := none
  timeout : Option Nat := none
deriving DecidableEq

/-- Render explicit header overrides for debug capture. -/
def renderHeaderOpt (l : List (String × Option String)) : String :=
  String.intercalate "," (l.map (fun p => p.1 ++ "=" ++ p.2.getD "None"))

/-- Best-effort serialization of the option bag performed by `save_req`
(http.py lines 206-212): every present option is stored under its keyword,
coerced to a string form. -/
def Kwargs.capture (kw : Kwargs) : Dict :=
  (match kw.json with | some s => [("json", s)] | none => [])
    ++ (match kw.data with | some s => [("data", s)] | none => [])
    ++ (match kw.headers with | some l => [("headers", renderHeaderOpt l)] | none => [])
    ++ (match kw.timeout with | some t => [("timeout", toString t)] | none => [])

/-- Default headers of a fresh `requests.Session()` (an external collaborator;
keys stored lower-cased per the `Headers` representation). -/
def sessionDefaultHeaders : Headers :=
  [("user-agent", "python-requests/2.31.0"),
   ("accept-encoding", "gzip, deflate"),
   ("accept", "*/*"),
   ("connection", "keep-alive")]

/-- The `Http` client object (http.py lines 82-114): identity, session
headers, cookie jar, proxy mapping, timeout, and the optional logger and
debugger collaborators (modelled by their presence). -/
structure Http where
  user_agent : String
  proxy_url : String
  timeout : Nat
  logger : Option Unit := none
  debugger : Option Unit := none
  headers : Headers
  cookies : Dict
  proxies : Dict

/-- `Http.__init__` (lines 85-114): `assert user_agent` rejects an empty
user-agent (the spec's `InvalidIdentity`, a Python `AssertionError`); the
session's `User-Agent` default header is overwritten, and a non-empty proxy
URL is installed for both the `http` and `https` schemes. -/
def Http.init (user_agent proxy_url : String) (timeout : Nat)
    (logger debugger : Option Unit) : Except PyError Http :=
  if user_agent == "" then Except.error PyError.assertionError
  else Except.ok
    { user_agent := user_agent
      proxy_url := proxy_url
      timeout := timeout
      logger := logger
      debugger := debugger
      headers := hset sessionDefaultHeaders "User-Agent" user_agent
      cookies := []
      proxies :=
        if proxy_url == "" then []
        else [("http", proxy_url), ("https", proxy_url)] }

/-- `Http.header_set` (lines 116-122): a present value upserts the header, a
`None` value removes it if present. -/
def Http.header_set (h : Http) (key : String) (value : Option String) : Http :=
  match value with
  | some v => { h with headers := hset h.headers key v }
  | none =>
      if (hget h.headers key).isSome then { h with headers := hdel h.headers key }
      else h

/-- `Http.header_get` (lines 124-130): empty string for a falsy key, a
missing header, or an empty stored value. -/
def Http.header_get (h : Http) (key : String) : String :=
  if key == "" then ""
  else
    match hget h.headers key with
    | some value => if value == "" then "" else value
    | none => ""

/-- `Http.h_data` (lines 160-165): form-encoded `Content-Type` preset. -/
def Http.h_data (h : Http) (utf8 : Bool) : Http :=
  let value := "application/x-www-form-urlencoded"
  let value := if utf8 then value ++ "; charset=UTF-8" else value
  h.header_set "Content-Type" (some value)

/-- `Http.h_json` (lines 167-172): JSON `Content-Type` preset. -/
def Http.h_json (h : Http) (utf8 : Bool) : Http :=
  let value := "application/json"
  let value := if utf8 then value ++ "; charset=UTF-8" else value
  h.header_set "Content-Type" (some value)

/-- `Http.prepare_headers` (lines 189-199): auto-select the content type from
the payload options (JSON wins over form data), then apply the explicit
header overrides, which therefore take precedence. -/
def Http.prepare_headers (h : Http) (kw : Kwargs) : Http :=
  let h :=
    if kw.json.isSome then h.h_json true
    else if kw.data.isSome then h.h_data true
    else h
  match kw.headers with
  | none => h
  | some l => l.foldl (fun h p => h.header_set p.1 p.2) h

/-- File store for cookie persistence: a mapping from paths to flat
key-value dictionaries. -/
abbrev FS := List (String × Dict)

/-- Modelled from the spec: `Path.is_file` — the path names an existing
file. -/
def isFile (fs : FS) (path : String) : Bool :=
  (alGet fs path).isSome

/-- Modelled from the spec: `IO.load_dict` (an external collaborator of the
core) loads the whole key-value mapping saved at a path. -/
def loadDict (fs : FS) (path : String) : Dict :=
  (alGet fs path).getD []

/-- Modelled from the spec: `IO.save_dict` writes the whole key-value
mapping to a path. -/
def saveDict (fs : FS) (path : String) (d : Dict) : FS :=
  alSet fs path d

/-- `Http.cookie_load` (lines 178-183): no-op when the path is not a file,
otherwise merge the saved mapping into the session jar. -/
def Http.cookie_load (h : Http) (fs : FS) (path : String) : Http :=
  if isFile fs path then
    { h with cookies := (loadDict fs path).foldl (fun c p => alSet c p.1 p.2) h.cookies }
  else h

/-- `Http.cookie_save` (lines 185-187): serialize the full jar to the
path. -/
def Http.cookie_save (h : Http) (fs : FS) (path : String) : FS :=
  saveDict fs path h.cookies

/-- Mutable state threaded through a client's calls: the `Http` object
itself, its in-flight `self.data` capture, and — modelled from the spec —
the external collaborators' state: the debug sink (`Debugger.save` appends
records keyed by the monotone id of `Debugger.id_add`), the logger (counters
of info and error lines emitted), and `Utils.smart_delay` (a counter of
sleeps performed). -/
structure HttpState where
  http : Http
  data : Option ClientData := none
  saved : List (Nat × ClientData) := []
  debugId : Nat := 0
  infoLogged : Nat := 0
  errLogged : Nat := 0
  slept : Nat := 0

/-- `Http.save_req` (lines 201-230): when debugging with a debugger attached,
snapshot the serialized options, the session's full cookie jar and header
set, assign `self.data` a half-populated record whose response part is the
`HttpResponse` zero value, bump the debug id, and persist the record. -/
def Http.save_req (st : HttpState) (method url : String) (debug : Bool)
    (kw : Kwargs) (now : Nat) : HttpState :=
  if debug && st.http.debugger.isSome then
    let data : ClientData :=
      { req :=
          { time_stamp := now
            method := method
            url := url
            params := kw.capture
            headers := st.http.headers
            cookies := st.http.cookies }
        res := { time_stamp := now } }
    { st with
        data := some data
        debugId := st.debugId + 1
        saved := st.saved ++ [(st.debugId + 1, data)] }
  else st

/-- `Http.save_res` (lines 232-249): when debugging with a debugger attached,
fill the in-flight record's response half from the transport response (JSON
parse failure yields an empty mapping) and persist it again under the same
id. Reading `self.data` before `save_req` ever assigned it would raise
`AttributeError`. -/
def Http.save_res (st : HttpState) (r : Resp) (debug : Bool) :
    Except PyError HttpState :=
  if debug && st.http.debugger.isSome then
    match st.data with
    | none => Except.error PyError.attributeError
    | some d =>
        let resJson := (jsonLoads r.text).getD (Json.obj [])
        let d : ClientData :=
          { d with
              res :=
                { time_stamp := d.res.time_stamp
                  code := r.status_code
                  success := r.toBool
                  url := r.url
                  headers := r.headers
                  cookies := r.cookies
                  text := r.text
                  json := resJson } }
        Except.ok { st with data := some d, saved := st.saved ++ [(st.debugId, d)] }
  else Except.ok st

/-- Lines 259-260 of `Http.req`:
`if not kwargs.get("timeout", None): kwargs["timeout"] = self.timeout`.
Python truthiness makes an absent timeout AND a supplied zero timeout both
fall back to the session default. -/
def reqTimeout (kw : Kwargs) (default : Nat) : Kwargs :=
  match kw.timeout with
  | none => { kw with timeout := some default }
  | some t => if t == 0 then { kw with timeout := some default } else kw

/-- `Http.req` (lines 251-269). The transport dispatch
`self.client.request(method, url, **kwargs)` is an external collaborator,
passed as the function `tr` from the dispatched option bag to either a
response or a raised error. Only `requests.RequestException` is caught; in
that handler `self.logger.exception(err)` is called, and on the success path
`self.logger.info(...)` is called before `save_res` — both crash with
`AttributeError` when the client was constructed without a logger. -/
def Http.req (st : HttpState) (method url : String) (debug : Bool) (kw : Kwargs)
    (tr : Kwargs → Except PyError Resp) (now : Nat) :
    Except PyError (Option Resp) × HttpState :=
  let st := { st with http := st.http.prepare_headers kw }
  let st := Http.save_req st method url debug kw now
  match tr (reqTimeout kw st.http.timeout) with
  | Except.error e =>
      match e with
      | PyError.requestException =>
          match st.http.logger with
          | none => (Except.error PyError.attributeError, st)
          | some _ => (Except.ok none, { st with errLogged := st.errLogged + 1 })
      | _ => (Except.error e, st)
  | Except.ok r =>
      match st.http.logger with
      | none => (Except.error PyError.attributeError, st)
      | some _ =>
          let st := { st with infoLogged := st.infoLogged + 1 }
          match Http.save_res st r debug with
          | Except.error e => (Except.error e, st)
          | Except.ok st => (Except.ok (some r), st)

/-- `Http.get` (lines 271-273): thin alias fixing the method string. -/
def Http.get (st : HttpState) (url : String) (debug : Bool) (kw : Kwargs)
    (tr : Kwargs → Except PyError Resp) (now : Nat) :
    Except PyError (Option Resp) × HttpState :=
  Http.req st "GET" url debug kw tr now

/-- Python call-site keyword binding: a call whose keyword arguments are not
all parameter names of the callee raises `TypeError` before the callee's
body runs. -/
def acceptsKeywords (params kws : List String) : Bool :=
  kws.all (fun k => params.contains k)

/-- The keyword parameters accepted by `Http.__init__` (lines 85-91). -/
def httpInitParams : List String :=
  ["user_agent", "proxy_url", "timeout", "logger", "debugger"]

/-- `SmartHTTP.new_http` (lines 349-357). The source invokes
`Http(user_agent=..., proxy_url=..., timeou=self.timeout, logger=...,
debugger=...)` — the misspelled keyword `timeou` is not a parameter of
`Http.__init__`, so Python raises `TypeError` at every call. -/
def SmartHTTP.new_http (timeout : Nat) (logger debugger : Option Unit)
    (user_agent proxy_url : String) : Except PyError Http :=
  if acceptsKeywords httpInitParams
      ["user_agent", "proxy_url", "timeou", "logger", "debugger"] then
    Http.init user_agent proxy_url timeout logger debugger
  else Except.error PyError.typeError

/-- `SmartHTTP.rnd_http` (lines 359-364): build a client from
`random.choice(self.list_ua)` and `random.choice(self.list_px)`; the random
draws are modelled by the explicit indices `iu` and `ip`. -/
def SmartHTTP.rnd_http (timeout : Nat) (logger debugger : Option Unit)
    (list_ua list_px : List String) (iu ip : Nat) : Except PyError Http :=
  SmartHTTP.new_http timeout logger debugger
    (list_ua.getD iu "") (list_px.getD ip "")

/-- Retry loop of `SmartHTTP.http_get_html` (lines 373-384), one transport
oracle `tr i` and capture timestamp `times i` per attempt `i`.
`self.http.get(...)` returns `None` after a swallowed transport failure, and
`with None as response:` then raises an error (`AttributeError`) that the
`except RequestException` clause cannot catch. A falsy response or a caught
`RequestException` in non-debug mode leads to `smart_delay` and the next
attempt; exhaustion returns the empty string. -/
def SmartHTTP.htmlLoop (tr : Nat → Kwargs → Except PyError Resp)
    (times : Nat → Nat) (url : String) (debug : Bool) :
    Nat → Nat → HttpState → Except PyError String × HttpState
  | _, 0, st => (Except.ok "", st)
  | i, fuel + 1, st =>
      match Http.get st url debug {} (tr i) (times i) with
      | (Except.error e, st) =>
          match e with
          | PyError.requestException =>
              if debug then (Except.error e, st)
              else
                SmartHTTP.htmlLoop tr times url debug (i + 1) fuel
                  { st with slept := st.slept + 1 }
          | _ => (Except.error e, st)
      | (Except.ok none, st) => (Except.error PyError.attributeError, st)
      | (Except.ok (some r), st) =>
          if r.toBool then (Except.ok r.text, st)
          else
            SmartHTTP.htmlLoop tr times url debug (i + 1) fuel
              { st with slept := st.slept + 1 }

/-- `SmartHTTP.http_get_html` (lines 373-384) with `retry` attempts. -/
def SmartHTTP.http_get_html (st : HttpState) (tr : Nat → Kwargs → Except PyError Resp)
    (times : Nat → Nat) (url : String) (debug : Bool) (retry : Nat) :
    Except PyError String × HttpState :=
  SmartHTTP.htmlLoop tr times url debug 0 retry st

/-- Retry loop of `SmartHTTP.http_get_json` (lines 386-397): like the html
loop, but a truthy response's body is decoded with `response.json()`, whose
`JSONDecodeError` (a `RequestException`) lands in the same handler: re-raised
in debug mode, else sleep and retry; exhaustion returns the empty mapping. -/
def SmartHTTP.jsonLoop (tr : Nat → Kwargs → Except PyError Resp)
    (times : Nat → Nat) (url : String) (debug : Bool) :
    Nat → Nat → HttpState → Except PyError Json × HttpState
  | _, 0, st => (Except.ok (Json.obj []), st)
  | i, fuel + 1, st =>
      match Http.get st url debug {} (tr i) (times i) with
      | (Except.error e, st) =>
          match e with
          | PyError.requestException =>
              if debug then (Except.error e, st)
              else
                SmartHTTP.jsonLoop tr times url debug (i + 1) fuel
                  { st with slept := st.slept + 1 }
          | _ => (Except.error e, st)
      | (Except.ok none, st) => (Except.error PyError.attributeError, st)
      | (Except.ok (some r), st) =>
          if r.toBool then
            match r.jsonBody with
            | Except.ok j => (Except.ok j, st)
            | Except.error e =>
                match e with
                | PyError.requestException =>
                    if debug then (Except.error e, st)
                    else
                      SmartHTTP.jsonLoop tr times url debug (i + 1) fuel
                        { st with slept := st.slept + 1 }
                | _ => (Except.error e, st)
          else
            SmartHTTP.jsonLoop tr times url debug (i + 1) fuel
              { st with slept := st.slept + 1 }

/-- `SmartHTTP.http_get_json` (lines 386-397) with `retry` attempts. -/
def SmartHTTP.http_get_json (st : HttpState) (tr : Nat → Kwargs → Except PyError Resp)
    (times : Nat → Nat) (url : String) (debug : Bool) (retry : Nat) :
    Except PyError Json × HttpState :=
  SmartHTTP.jsonLoop tr times url debug 0 retry st

/-- `header_set` only rewrites the header table. -/
theorem header_set_shape (h : Http) (k : String) (v : Option String) :
    ∃ hs, Http.header_set h k v = { h with headers := hs } := by
  cases v with
  | some v => exact ⟨hset h.headers k v, rfl⟩
  | none =>
      by_cases hp : (hget h.headers k).isSome
      · exact ⟨hdel h.headers k, by simp [Http.header_set, hp]⟩
      · exact ⟨h.headers, by simp [Http.header_set, hp]⟩

/-- Folding `header_set` over a list only rewrites the header table. -/
theorem foldl_header_set_shape (l : List (String × Option String)) (h : Http) :
    ∃ hs, l.foldl (fun h p => h.header_set p.1 p.2) h = { h with headers := hs } := by
  induction l generalizing h with
  | nil => exact ⟨h.headers, rfl⟩
  | cons p tl ih =>
      obtain ⟨hs1, e1⟩ := header_set_shape h p.1 p.2
      obtain ⟨hs2, e2⟩ := ih (h.header_set p.1 p.2)
      refine ⟨hs2, ?_⟩
      rw [List.foldl_cons, e2, e1]

/-- `prepare_headers` only rewrites the header table. -/
theorem prepare_headers_shape (h : Http) (kw : Kwargs) :
    ∃ hs, h.prepare_headers kw = { h with headers := hs } := by
  unfold Http.prepare_headers
  obtain ⟨hs1, e1⟩ :
      ∃ hs, (if kw.json.isSome then h.h_json true
             else if kw.data.isSome then h.h_data true else h)
        = { h with headers := hs } := by
    by_cases hj : kw.json.isSome
    · simpa [hj, Http.h_json] using
        header_set_shape h "Content-Type" (some "application/json; charset=UTF-8")
    · by_cases hd : kw.data.isSome
      · simpa [hj, hd, Http.h_data] using
          header_set_shape h "Content-Type"
            (some "application/x-www-form-urlencoded; charset=UTF-8")
      · exact ⟨h.headers, by simp [hj, hd]⟩
  rw [e1]
  cases kw.headers with
  | none => exact ⟨hs1, rfl⟩
  | some l =>
      obtain ⟨hs2, e2⟩ := foldl_header_set_shape l { h with headers := hs1 }
      exact ⟨hs2, e2⟩

theorem prepare_headers_logger (h : Http) (kw : Kwargs) :
    (h.prepare_headers kw).logger = h.logger := by
  obtain ⟨hs, e⟩ := prepare_headers_shape h kw
  rw [e]

theorem prepare_headers_timeout (h : Http) (kw : Kwargs) :
    (h.prepare_headers kw).timeout = h.timeout := by
  obtain ⟨hs, e⟩ := prepare_headers_shape h kw
  rw [e]

theorem prepare_headers_debugger (h : Http) (kw : Kwargs) :
    (h.prepare_headers kw).debugger = h.debugger := by
  obtain ⟨hs, e⟩ := prepare_headers_shape h kw
  rw [e]

theorem prepare_headers_cookies (h : Http) (kw : Kwargs) :
    (h.prepare_headers kw).cookies = h.cookies := by
  obtain ⟨hs, e⟩ := prepare_headers_shape h kw
  rw [e]

theorem save_req_http (st : HttpState) (m u : String) (dbg : Bool) (kw : Kwargs)
    (now : Nat) : (Http.save_req st m u dbg kw now).http = st.http := by
  unfold Http.save_req
  split <;> rfl

theorem save_req_errLogged (st : HttpState) (m u : String) (dbg : Bool) (kw : Kwargs)
    (now : Nat) : (Http.save_req st m u dbg kw now).errLogged = st.errLogged := by
  unfold Http.save_req
  split <;> rfl

theorem save_req_infoLogged (st : HttpState) (m u : String) (dbg : Bool) (kw : Kwargs)
    (now : Nat) : (Http.save_req st m u dbg kw now).infoLogged = st.infoLogged := by
  unfold Http.save_req
  split <;> rfl

/-- Fixture: a client as `SmartHTTP` would build one — logger and debugger
attached, empty proxy. -/
def sampleHttp : Http :=
  { user_agent := "Mozilla/5.0"
    proxy_url := ""
    timeout := 30
    logger := some ()
    debugger := some ()
    headers := hset sessionDefaultHeaders "User-Agent" "Mozilla/5.0"
    cookies := []
    proxies := [] }

/-- Fixture: initial call state for `sampleHttp`. -/
def sampleSt : HttpState := { http := sampleHttp }

/-- C5: constructing a Session Client (`Http.__init__`) succeeds if and only
if the user-agent is non-empty; on success `header_get "User-Agent"` returns
exactly the given string; with an empty user-agent construction fails with
the spec's `InvalidIdentity` (the `assert user_agent` `AssertionError`). -/
theorem init_user_agent_iff (ua px : String) (t : Nat) (lg dbg : Option Unit) :
    ((Http.init ua px t lg dbg).isOk ↔ ua ≠ "") ∧
    (∀ h, Http.init ua px t lg dbg = Except.ok h → h.header_get "User-Agent" = ua) ∧
    (ua = "" → Http.init ua px t lg dbg = Except.error PyError.assertionError) := by
  refine ⟨?_, ?_, ?_⟩
  · by_cases hua : ua = "" <;> simp [Http.init, hua, Except.isOk, Except.toBool]
  · intro h hinit
    by_cases hua : ua = ""
    · simp [Http.init, hua] at hinit
    · simp only [Http.init, beq_iff_eq, if_neg hua, Except.ok.injEq] at hinit
      rw [← hinit]
      simp [Http.header_get, hget_hset, hua]
  · intro hua
    simp [Http.init, hua]

/-- C5 witness: a concrete non-empty user-agent round-trips through
`header_get`. -/
theorem init_user_agent_iff_witness :
    sampleHttp.header_get "User-Agent" = "Mozilla/5.0" :=
  (init_user_agent_iff "Mozilla/5.0" "" 30 (some ()) (some ())).2.1 sampleHttp rfl

/-- C2: with a logger attached, a transport-level failure
(`requests.RequestException`) raised by the dispatch inside `Http.req` is
logged (one more error line) and converted to `None`; it is not
propagated. -/
theorem req_swallows_transport_failure (st : HttpState) (method url : String)
    (debug : Bool) (kw : Kwargs) (now : Nat) (tr : Kwargs → Except PyError Resp)
    (hlog : st.http.logger = some ())
    (htr : ∀ k, tr k = Except.error PyError.requestException) :
    (Http.req st method url debug kw tr now).1 = Except.ok none ∧
    (Http.req st method url debug kw tr now).2.errLogged = st.errLogged + 1 := by
  simp only [Http.req, htr, save_req_http, prepare_headers_logger, hlog,
    save_req_errLogged]
  exact ⟨trivial, trivial⟩

/-- C2 witness at a concrete state and always-failing transport. -/
theorem req_swallows_transport_failure_witness :
    (Http.req sampleSt "GET" "http://x" false {}
        (fun _ => Except.error PyError.requestException) 0).1 = Except.ok none ∧
    (Http.req sampleSt "GET" "http://x" false {}
        (fun _ => Except.error PyError.requestException) 0).2.errLogged
      = sampleSt.errLogged + 1 :=
  req_swallows_transport_failure sampleSt "GET" "http://x" false {} 0 _ rfl
    (fun _ => rfl)

/-- C10: a client constructed without a logger crashes with `AttributeError`
in `Http.req` on both reachable logging sites — the info line of the success
path and the exception line of the transport-failure path — instead of
returning a response or `None`. -/
theorem req_requires_logger (st : HttpState) (method url : String) (debug : Bool)
    (kw : Kwargs) (now : Nat) (tr : Kwargs → Except PyError Resp)
    (hlog : st.http.logger = none)
    (hres : (∃ r, tr (reqTimeout kw st.http.timeout) = Except.ok r) ∨
            tr (reqTimeout kw st.http.timeout) = Except.error PyError.requestException) :
    (Http.req st method url debug kw tr now).1 = Except.error PyError.attributeError := by
  rcases hres with ⟨r, hr⟩ | hr <;>
    simp only [Http.req, save_req_http, prepare_headers_timeout,
      prepare_headers_logger, hr, hlog]

/-- C10 witness: a logger-less client crashes even on a successful
dispatch. -/
theorem req_requires_logger_witness :
    (Http.req { http := { sampleHttp with logger := none } } "GET" "http://x"
        false {} (fun _ => Except.ok { status_code := 200, text := "ok" }) 0).1
      = Except.error PyError.attributeError :=
  req_requires_logger { http := { sampleHttp with logger := none } } "GET"
    "http://x" false {} 0 _ rfl
    (Or.inl ⟨{ status_code := 200, text := "ok" }, rfl⟩)

/-- C8 (amended): the session default timeout is substituted exactly when the
caller supplied no timeout or a falsy one (`None`/`0`); a non-zero supplied
timeout is left unchanged; and `Http.req` consults the transport only at the
option bag produced by this policy. -/
theorem req_timeout_policy (d : Nat) (kw : Kwargs) :
    (kw.timeout = none → reqTimeout kw d = { kw with timeout := some d }) ∧
    (kw.timeout = some 0 → reqTimeout kw d = { kw with timeout := some d }) ∧
    (∀ t, kw.timeout = some t → t ≠ 0 → reqTimeout kw d = kw) ∧
    (∀ st method url debug tr tr' now,
        tr (reqTimeout kw st.http.timeout) = tr' (reqTimeout kw st.http.timeout) →
        Http.req st method url debug kw tr now = Http.req st method url debug kw tr' now) := by
  refine ⟨?_, ?_, ?_, ?_⟩
  · intro h
    simp [reqTimeout, h]
  · intro h
    simp [reqTimeout, h]
  · intro t h ht
    simp [reqTimeout, h, ht]
  · intro st method url debug tr tr' now hagree
    simp only [Http.req, save_req_http, prepare_headers_timeout]
    rw [hagree]

/-- C8 counterexample to the claim as stated: the caller-supplied timeout `0`
is not passed through unchanged — lines 259-260 test Python truthiness, so
`0` is replaced by the session default. -/
theorem req_timeout_zero_cex :
    reqTimeout { timeout := some 0 } 30 ≠ ({ timeout := some 0 } : Kwargs) := by
  decide

/-- C8 witness: a supplied falsy timeout `0` is replaced by the session
default `30`, while a non-zero supplied timeout is passed through
unchanged. -/
theorem req_timeout_policy_witness :
    reqTimeout { timeout := some 0 } 30 = ({ timeout := some 30 } : Kwargs) ∧
    reqTimeout { timeout := some 5 } 30 = ({ timeout := some 5 } : Kwargs) :=
  ⟨(req_timeout_policy 30 { timeout := some 0 }).2.1 rfl,
   (req_timeout_policy 30 { timeout := some 5 }).2.2.1 5 rfl (by decide)⟩

/-- C4: every call of `SmartHTTP.rnd_http` raises `TypeError`, because
`new_http` passes the misspelled keyword `timeou` to `Http.__init__`; no
client with a randomly chosen identity is ever returned. -/
theorem rnd_http_always_type_error (timeout : Nat) (lg dbg : Option Unit)
    (list_ua list_px : List String) (iu ip : Nat) :
    SmartHTTP.rnd_http timeout lg dbg list_ua list_px iu ip
      = Except.error PyError.typeError := by
  have hkw : acceptsKeywords httpInitParams
      ["user_agent", "proxy_url", "timeou", "logger", "debugger"] = false := by decide
  simp [SmartHTTP.rnd_http, SmartHTTP.new_http, hkw]

/-- C7: in a debug-enabled call whose transport dispatch raises, the record
persisted by `save_req` is the only one added: its request half carries the
captured call data and its response half stays at the `HttpResponse` zero
value — status code 200 and `success = false`. -/
theorem req_debug_record_on_transport_failure (st : HttpState) (method url : String)
    (kw : Kwargs) (now : Nat) (tr : Kwargs → Except PyError Resp)
    (hdbg : st.http.debugger = some ())
    (htr : ∀ k, tr k = Except.error PyError.requestException) :
    (Http.req st method url true kw tr now).2.saved
      = st.saved ++ [(st.debugId + 1,
          { req :=
              { time_stamp := now
                method := method
                url := url
                params := kw.capture
                headers := (st.http.prepare_headers kw).headers
                cookies := st.http.cookies }
            res :=
              { time_stamp := now
                success := false
                code := 200
                url := ""
                headers := []
                cookies := []
                text := ""
                json := Json.obj [] } })] := by
  have hdbg' : (st.http.prepare_headers kw).debugger = some () := by
    rw [prepare_headers_debugger, hdbg]
  simp only [Http.req, Http.save_req, htr, hdbg', prepare_headers_cookies,
    Option.isSome_some, Bool.and_self, if_true]
  cases hl : (st.http.prepare_headers kw).logger <;> simp

/-- C7 witness: concrete debug-enabled call with a failing transport. -/
theorem req_debug_record_witness :
    (Http.req sampleSt "GET" "http://x" true {}
        (fun _ => Except.error PyError.requestException) 7).2.saved
      = sampleSt.saved ++ [(sampleSt.debugId + 1,
          { req :=
              { time_stamp := 7
                method := "GET"
                url := "http://x"
                params := Kwargs.capture {}
                headers := (sampleSt.http.prepare_headers {}).headers
                cookies := sampleSt.http.cookies }
            res :=
              { time_stamp := 7
                success := false
                code := 200
                url := ""
                headers := []
                cookies := []
                text := ""
                json := Json.obj [] } })] :=
  req_debug_record_on_transport_failure sampleSt "GET" "http://x" {} 7 _ rfl
    (fun _ => rfl)

/-- C1 (behaviour the code actually has): with a transport that always raises
a `RequestException` and `debug = false`, `http_get_html` does NOT return
`""` after the attempts — `Http.req` swallows the failure and returns `None`,
and `with None as response:` then raises an error the
`except RequestException` clause cannot catch, so the call raises on the
first attempt. -/
theorem http_get_html_crashes_on_transport_failure (st : HttpState)
    (times : Nat → Nat) (url : String) (n : Nat) (hn : 0 < n)
    (tr : Nat → Kwargs → Except PyError Resp)
    (htr : ∀ i k, tr i k = Except.error PyError.requestException) :
    (SmartHTTP.http_get_html st tr times url false n).1
      = Except.error PyError.attributeError := by
  obtain ⟨m, rfl⟩ : ∃ m, n = m + 1 := ⟨n - 1, (Nat.succ_pred_eq_of_pos hn).symm⟩
  simp only [SmartHTTP.http_get_html, SmartHTTP.htmlLoop, Http.get, Http.req,
    htr, save_req_http]
  cases hl : (st.http.prepare_headers {}).logger <;> simp

/-- C1 witness: the crash at a concrete state, URL and three attempts. -/
theorem http_get_html_crashes_witness :
    (SmartHTTP.http_get_html sampleSt
        (fun _ _ => Except.error PyError.requestException) (fun _ => 0)
        "http://x" false 3).1 = Except.error PyError.attributeError :=
  http_get_html_crashes_on_transport_failure sampleSt (fun _ => 0) "http://x" 3
    (by decide) _ (fun _ _ => rfl)

/-- `prepare_headers` with an empty option bag changes nothing. -/
theorem prepare_headers_empty (h : Http) : h.prepare_headers {} = h := rfl

/-- `save_req` outside debug mode changes nothing. -/
theorem save_req_nodebug (st : HttpState) (m u : String) (kw : Kwargs) (now : Nat) :
    Http.save_req st m u false kw now = st := by
  unfold Http.save_req
  simp

/-- `save_res` outside debug mode changes nothing. -/
theorem save_res_nodebug (st : HttpState) (r : Resp) :
    Http.save_res st r false = Except.ok st := by
  unfold Http.save_res
  simp

/-- A plain (no options, non-debug) GET through `Http.req` with a logger
attached and a responding transport returns the response and only bumps the
info-log counter. -/
theorem req_get_nodebug (st : HttpState) (url : String) (now : Nat)
    (tr : Kwargs → Except PyError Resp) (r : Resp)
    (hlog : st.http.logger = some ())
    (htr : tr (reqTimeout {} st.http.timeout) = Except.ok r) :
    Http.req st "GET" url false {} tr now
      = (Except.ok (some r), { st with infoLogged := st.infoLogged + 1 }) := by
  have hpre : ({ st with http := st.http.prepare_headers {} } : HttpState) = st := by
    rw [prepare_headers_empty]
  simp only [Http.req, hpre, save_req_nodebug, htr, hlog, save_res_nodebug]

/-- Exhausting the json retry loop: when every attempt's transport returns a
response whose body is not valid JSON, the non-debug loop ends with the
empty mapping (no exception). -/
theorem jsonLoop_invalid_all (tr : Nat → Kwargs → Except PyError Resp)
    (times : Nat → Nat) (url : String) (T : Nat) :
    ∀ fuel i st, st.http.logger = some () → st.http.timeout = T →
      (∀ j, ∃ r, tr j (reqTimeout {} T) = Except.ok r ∧ jsonLoads r.text = none) →
      (SmartHTTP.jsonLoop tr times url false i fuel st).1 = Except.ok (Json.obj []) := by
  intro fuel
  induction fuel with
  | zero =>
      intro i st _ _ _
      rfl
  | succ fuel ih =>
      intro i st hlog hT hor
      obtain ⟨r, hr, hjson⟩ := hor i
      have hreq := req_get_nodebug st url (times i) (tr i) r hlog (by rw [hT]; exact hr)
      have hbody : r.jsonBody = Except.error PyError.requestException := by
        unfold Resp.jsonBody
        rw [hjson]
      unfold SmartHTTP.jsonLoop Http.get
      rw [hreq]
      by_cases hb : r.toBool
      · simp only [hb, hbody, if_true]
        exact ih (i + 1) _ (by simpa using hlog) (by simpa using hT) hor
      · simp only [hb]
        exact ih (i + 1) _ (by simpa using hlog) (by simpa using hT) hor

/-- C3: for every URL and attempt count, `http_get_json` in non-debug mode
over a transport whose responses' bodies are never valid JSON returns the
empty mapping instead of raising — `Response.json()`'s decode error is a
`RequestException`, caught by the loop, and exhaustion yields the empty
dict. -/
theorem http_get_json_invalid_json_empty (st : HttpState)
    (tr : Nat → Kwargs → Except PyError Resp) (times : Nat → Nat) (url : String)
    (n : Nat) (hlog : st.http.logger = some ())
    (hor : ∀ i, ∃ r, tr i (reqTimeout {} st.http.timeout) = Except.ok r ∧
        jsonLoads r.text = none) :
    (SmartHTTP.http_get_json st tr times url false n).1 = Except.ok (Json.obj []) :=
  jsonLoop_invalid_all tr times url st.http.timeout n 0 st hlog rfl hor

/-- Fixture: a 200 response whose body is not valid JSON. -/
def badJsonResp : Resp := { status_code := 200, text := "\x7bnot json" }

/-- C3 witness: three attempts against a response with body `"{not json"`
return the empty mapping. -/
theorem http_get_json_invalid_json_empty_witness :
    (SmartHTTP.http_get_json sampleSt (fun _ _ => Except.ok badJsonResp)
        (fun _ => 0) "http://x" false 3).1 = Except.ok (Json.obj []) :=
  http_get_json_invalid_json_empty sampleSt _ _ "http://x" 3 rfl
    (fun _ => ⟨badJsonResp, rfl, rfl⟩)

/-- `hget` depends on the key only through its lower-casing. -/
theorem hget_eq_of_toLower_eq (hs : Headers) (k q : String)
    (h : k.toLower = q.toLower) : hget hs k = hget hs q := by
  induction hs with
  | nil => rfl
  | cons p tl ih => simp [hget, h, ih]

/-- Observable effect of `header_set` on a case-insensitive lookup: the
written (or removed) value wins on the same key, everything else is
untouched. -/
theorem hget_header_set (h : Http) (k : String) (ov : Option String) (q : String) :
    hget (Http.header_set h k ov).headers q
      = if k.toLower == q.toLower then ov else hget h.headers q := by
  cases ov with
  | some v => simpa [Http.header_set] using hget_hset h.headers k v q
  | none =>
      by_cases hp : (hget h.headers k).isSome
      · simpa [Http.header_set, hp] using hget_hdel h.headers k q
      · simp only [Http.header_set, hp, if_false, Bool.false_eq_true]
        by_cases he : k.toLower = q.toLower
        · have : hget h.headers q = none := by
            rw [← hget_eq_of_toLower_eq h.headers k q he]
            exact Option.not_isSome_iff_eq_none.mp hp
          simp [he, this]
        · simp [he]

/-- A header name addresses `Content-Type` under the case-insensitive
header dictionary. -/
def isCTKey (k : String) : Bool :=
  k.toLower == "Content-Type".toLower

/-- The last explicit `Content-Type` entry (case-insensitive) in an options
header list, if any: `some (some v)` sets the header to `v`, `some none`
removes it, `none` means no override present. -/
def lastCT : List (String × Option String) → Option (Option String)
  | [] => none
  | p :: tl =>
      match lastCT tl with
      | some ov => some ov
      | none => if isCTKey p.1 then some p.2 else none

/-- Applying the explicit header overrides: the last content-type override
(if any) decides the final `Content-Type` lookup. -/
theorem hget_foldl_header_set (l : List (String × Option String)) (h : Http) :
    hget (l.foldl (fun h p => h.header_set p.1 p.2) h).headers "Content-Type"
      = match lastCT l with
        | none => hget h.headers "Content-Type"
        | some ov => ov := by
  induction l generalizing h with
  | nil => rfl
  | cons p tl ih =>
      rw [List.foldl_cons, ih]
      cases hlt : lastCT tl with
      | some ov => simp [lastCT, hlt]
      | none =>
          by_cases hct : p.1.toLower = "Content-Type".toLower
          · simp [lastCT, hlt, isCTKey, hct, hget_header_set]
          · simp [lastCT, hlt, isCTKey, hct, hget_header_set]

/-- The content-type override carried by the options, if any. -/
def ctOverride (kw : Kwargs) : Option (Option String) :=
  match kw.headers with
  | none => none
  | some l => lastCT l

/-- The options carry no explicit content-type override. -/
def noCTOverride (kw : Kwargs) : Prop :=
  ctOverride kw = none

/-- `header_get` reads a present, non-empty header value verbatim. -/
theorem header_get_of_hget (h : Http) (q val : String) (hq : q ≠ "")
    (hv : val ≠ "") (hh : hget h.headers q = some val) :
    h.header_get q = val := by
  simp [Http.header_get, hq, hh, hv]

/-- After `prepare_headers`, the `Content-Type` lookup is decided by the
payload presets and the overrides. -/
theorem hget_prepare_headers_ct (h : Http) (kw : Kwargs) :
    hget (h.prepare_headers kw).headers "Content-Type"
      = (match ctOverride kw with
         | some ov => ov
         | none =>
             if kw.json.isSome then some "application/json; charset=UTF-8"
             else if kw.data.isSome then
               some "application/x-www-form-urlencoded; charset=UTF-8"
             else hget h.headers "Content-Type") := by
  have hbase :
      hget (if kw.json.isSome then h.h_json true
            else if kw.data.isSome then h.h_data true else h).headers "Content-Type"
        = (if kw.json.isSome then some "application/json; charset=UTF-8"
           else if kw.data.isSome then
             some "application/x-www-form-urlencoded; charset=UTF-8"
           else hget h.headers "Content-Type") := by
    by_cases hj : kw.json.isSome
    · simp [hj, Http.h_json, hget_header_set]
    · by_cases hd : kw.data.isSome
      · simp [hj, hd, Http.h_data, hget_header_set]
      · simp [hj, hd]
  unfold Http.prepare_headers
  cases hkw : kw.headers with
  | none =>
      simp only [ctOverride, hkw]
      exact hbase
  | some l =>
      simp only [ctOverride, hkw]
      rw [hget_foldl_header_set l]
      cases hlt : lastCT l with
      | some ov => simp [hlt]
      | none =>
          simp only [hlt]
          exact hbase

/-- C6: `prepare_headers` sets `Content-Type` to the JSON content type when a
JSON payload option is present, to the form-encoded content type when a
generic payload option is present without a JSON one, and an explicit
(non-empty) header override in the options wins over both presets. -/
theorem prepare_headers_content_type (h : Http) (kw : Kwargs) :
    (kw.json.isSome = true → noCTOverride kw →
      (h.prepare_headers kw).header_get "Content-Type"
        = "application/json; charset=UTF-8") ∧
    (kw.json = none → kw.data.isSome = true → noCTOverride kw →
      (h.prepare_headers kw).header_get "Content-Type"
        = "application/x-www-form-urlencoded; charset=UTF-8") ∧
    (∀ l v, kw.headers = some l → lastCT l = some (some v) → v ≠ "" →
      (h.prepare_headers kw).header_get "Content-Type" = v) := by
  refine ⟨?_, ?_, ?_⟩
  · intro hj hno
    refine header_get_of_hget _ _ _ (by decide) (by decide) ?_
    rw [hget_prepare_headers_ct]
    unfold noCTOverride at hno
    simp [hno, hj]
  · intro hj hd hno
    refine header_get_of_hget _ _ _ (by decide) (by decide) ?_
    rw [hget_prepare_headers_ct]
    unfold noCTOverride at hno
    simp [hno, hj, hd]
  · intro l v hkw hlt hv
    refine header_get_of_hget _ _ _ (by decide) hv ?_
    rw [hget_prepare_headers_ct]
    simp [ctOverride, hkw, hlt]

/-- C6 witness: a JSON payload option yields the JSON content type on a
concrete client. -/
theorem prepare_headers_content_type_witness :
    (sampleHttp.prepare_headers { json := some "payload" }).header_get
        "Content-Type" = "application/json; charset=UTF-8" :=
  (prepare_headers_content_type sampleHttp { json := some "payload" }).1 rfl
    rfl

/-- C9: saving a (duplicate-free) cookie jar and loading it into a freshly
constructed client reproduces the jar exactly, and `cookie_load` on a
non-existent path is a no-op. -/
theorem cookie_roundtrip (h h2 : Http) (fs : FS) (path ua px : String) (t : Nat)
    (lg dbg : Option Unit)
    (hnodup : (h.cookies.map Prod.fst).Nodup)
    (hfresh : Http.init ua px t lg dbg = Except.ok h2) :
    ((h2.cookie_load (h.cookie_save fs path) path).cookies = h.cookies) ∧
    (∀ h3 : Http, isFile fs path = false → h3.cookie_load fs path = h3) := by
  constructor
  · have h2c : h2.cookies = [] := by
      by_cases hua : ua = ""
      · simp [Http.init, hua] at hfresh
      · simp only [Http.init, beq_iff_eq, if_neg hua, Except.ok.injEq] at hfresh
        rw [← hfresh]
    have hf : isFile (h.cookie_save fs path) path = true := by
      simp [Http.cookie_save, saveDict, isFile, alGet_alSet]
    have hl : loadDict (h.cookie_save fs path) path = h.cookies := by
      simp [Http.cookie_save, saveDict, loadDict, alGet_alSet]
    simp only [Http.cookie_load, hf, if_true, hl, h2c]
    simpa using foldl_alSet_eq_append h.cookies [] hnodup (by simp)
  · intro h3 hnf
    simp [Http.cookie_load, hnf]

/-- Fixture: a client owning a two-entry cookie jar. -/
def jarHttp : Http := { sampleHttp with cookies := [("sid", "1"), ("tok", "2")] }

/-- Fixture: the client `Http.init "UA" "" 30 none none` constructs. -/
def freshHttp : Http :=
  { user_agent := "UA"
    proxy_url := ""
    timeout := 30
    logger := none
    debugger := none
    headers := hset sessionDefaultHeaders "User-Agent" "UA"
    cookies := []
    proxies := [] }

/-- C9 witness: a concrete two-cookie jar survives the save/load
round-trip into a fresh client. -/
theorem cookie_roundtrip_witness :
    (freshHttp.cookie_load (jarHttp.cookie_save [] "cookies.json")
        "cookies.json").cookies = jarHttp.cookies :=
  (cookie_roundtrip jarHttp freshHttp [] "cookies.json" "UA" "" 30 none none
      (by decide) rfl).1

end RC
